import Mathlib

/-!
Verification of the OpenRouter SQL-agent repository.

The development shallowly embeds the bespoke logic of the repository:
the read-only query guard and result formatting of `pydantic_sql_agent.py`,
the schema rendering and truncation of `DatabaseContext`, the per-query
session scope, the interactive CLI loop of both agent scripts, and the
idempotent setup / fail-fast error paths of `setup_database.py` and
`remove_database.py`.

Python string primitives (`strip`, `upper`, `lower`, `startswith`) are
modelled over the code-point list of a string, matching Python's
code-point semantics; the database boundary (SQLAlchemy execution,
psycopg2 cursors) is modelled as explicit `Except`-valued oracles, with
call traces recorded where a claim speaks about which calls are made.
-/

/-! ## Python string primitives -/

/-- Python `str.strip()`: remove leading and trailing whitespace. -/
def pyStrip (s : String) : String :=
  String.mk (((s.toList.dropWhile Char.isWhitespace).reverse.dropWhile
    Char.isWhitespace).reverse)

/-- Python `str.upper()` (ASCII range, which covers all SQL keywords). -/
def pyUpper (s : String) : String :=
  String.mk (s.toList.map Char.toUpper)

/-- Python `str.lower()` (ASCII range). -/
def pyLower (s : String) : String :=
  String.mk (s.toList.map Char.toLower)

/-- Python `s.startswith(p)`: the first `len p` code points of `s` are `p`. -/
def pyStartsWith (s p : String) : Bool :=
  s.toList.take p.toList.length = p.toList

/-! ## QueryResult (pydantic_sql_agent.py, class QueryResult) -/

/-- Mirrors the `Literal["query", "error", "info"]` tag of `QueryResult`. -/
inductive ResultType
  | query
  | error
  | info
deriving DecidableEq, Repr

/-- Mirrors `QueryResult` of `pydantic_sql_agent.py`: a tagged record with
a content string and optional details (the SQL query). -/
structure QueryResult where
  type : ResultType
  content : String
  details : Option String
deriving DecidableEq, Repr

/-! ## The execute_sql_query tool (pydantic_sql_agent.py, lines 188-224)

The database boundary `ctx.deps.execute_query` is modelled as an oracle
`execQ : String → Except String String`: `.ok r` is a successful result
string, `.error e` is a raised exception with message `e`.  The second
component of the returned pair is the trace of strings actually passed to
the oracle, so claims about "no database call" and "forwarded verbatim"
are statable. -/

/-- Embeds the body of `execute_sql_query`: strip/upper the input, reject
non-SELECT with an error `QueryResult` before any database call, otherwise
forward the original string; any exception from execution is caught and
converted to an error `QueryResult` carrying the message. -/
def execute_sql_query (execQ : String → Except String String)
    (sql_query : String) : QueryResult × List String :=
  let query_upper := pyUpper (pyStrip sql_query)
  if ¬ (pyStartsWith query_upper "SELECT") then
    (⟨.error, "Only SELECT queries are allowed for security reasons.",
      some sql_query⟩, [])
  else
    match execQ sql_query with
    | .ok result => (⟨.query, result, some sql_query⟩, [sql_query])
    | .error e =>
      (⟨.error, "Query execution failed: " ++ e, some sql_query⟩, [sql_query])

/-! ## Theorems for the guard claims -/

/-- C1: `execute_sql_query` returns an error-tagged result with no database
call exactly when the stripped, upper-cased input does not start with
"SELECT"; when it does start with "SELECT", the original (unstripped)
string is the one and only string forwarded to the database oracle. -/
theorem execute_sql_query_select_guard
    (execQ : String → Except String String) (s : String) :
    ((((execute_sql_query execQ s).1.type = .error) ∧
        (execute_sql_query execQ s).2 = []) ↔
      ¬ (pyStartsWith (pyUpper (pyStrip s)) "SELECT" = true)) ∧
    (pyStartsWith (pyUpper (pyStrip s)) "SELECT" = true →
      (execute_sql_query execQ s).2 = [s]) := by
  unfold execute_sql_query
  by_cases h : pyStartsWith (pyUpper (pyStrip s)) "SELECT" = true
  · cases hq : execQ s <;> simp [h, hq]
  · simp [h]

/-- Witness for C1 at a concrete input: a query starting with "select" is
forwarded unchanged. -/
theorem execute_sql_query_select_guard_witness :
    (execute_sql_query (fun _ => Except.ok "r") "  select 1 ").2 =
      ["  select 1 "] :=
  (execute_sql_query_select_guard (fun _ => Except.ok "r") "  select 1 ").2
    (by decide)

/-- C2: `execute_sql_query` is total (never propagates an exception): the
database oracle is consulted at most once, and when it raises, the result
is an error-tagged `QueryResult` whose content is the fixed failure text
followed by the exception's message. -/
theorem execute_sql_query_catches_exceptions
    (execQ : String → Except String String) (s : String) :
    (execute_sql_query execQ s).2.length ≤ 1 ∧
    (∀ e, execQ s = .error e →
      pyStartsWith (pyUpper (pyStrip s)) "SELECT" = true →
      (execute_sql_query execQ s).1 =
        ⟨.error, "Query execution failed: " ++ e, some s⟩) := by
  unfold execute_sql_query
  by_cases h : pyStartsWith (pyUpper (pyStrip s)) "SELECT" = true
  · cases hq : execQ s <;> simp [h, hq]
  · simp [h]

/-- Witness for C2 at a concrete input: a raising oracle yields an error
result carrying the message, with exactly one call made. -/
theorem execute_sql_query_catches_exceptions_witness :
    (execute_sql_query (fun _ => Except.error "boom") "SELECT 1").1 =
      ⟨.error, "Query execution failed: boom", some "SELECT 1"⟩ :=
  (execute_sql_query_catches_exceptions (fun _ => Except.error "boom")
    "SELECT 1").2 "boom" rfl (by decide)

/-! ## Query execution and result formatting (pydantic_sql_agent.py, lines 99-136)

`session.execute` is modelled as an oracle `runQ : String → Except String
SqlResult`; a `SqlResult` is either a row-returning result (the keys and
the fetched rows, each value already in its `str(...)` form, since
stringification of driver values is external) or a rowless result. -/

/-- Result of `session.execute`: `withRows keys rows` when
`result.returns_rows`, `withoutRows` otherwise. -/
inductive SqlResult
  | withRows (columns : List String) (rows : List (List String))
  | withoutRows
deriving DecidableEq, Repr

/-- The `output` list built by `execute_query` for a nonempty row set:
header line, separator line of `-` of the header's length, the first 100
rows pipe-joined, and, when more than 100 rows were fetched, a trailing
element reporting the omitted count (itself starting with a newline, as in
the f-string). -/
def format_rows_output (columns : List String) (rows : List (List String)) :
    List String :=
  let header := String.intercalate " | " columns
  let output := [header, String.mk (List.replicate header.length '-')]
  let output := output ++ (rows.take 100).map (String.intercalate " | ")
  if 100 < rows.length then
    output ++ ["\n... (" ++ toString (rows.length - 100) ++ " more rows)"]
  else
    output

/-- The return value of `execute_query` as a function of the execution
result: fixed messages for rowless outcomes, otherwise the newline-join of
`format_rows_output`. -/
def execute_query_body (res : SqlResult) : String :=
  match res with
  | .withRows columns rows =>
    if rows = [] then "Query executed successfully. No rows returned."
    else String.intercalate "\n" (format_rows_output columns rows)
  | .withoutRows => "Query executed successfully."

/-! ## Session scope (pydantic_sql_agent.py, get_session, lines 99-110)

The `get_session` context manager is `SessionLocal(); try: yield;
commit / except: rollback; raise / finally: close`.  It is embedded as a
combinator on the `Except`-valued outcome of the body, returning the
outcome together with the ordered trace of session events. -/

/-- Lifecycle events of one database session. -/
inductive SessionEvent
  | opened
  | committed
  | rolledBack
  | closed
deriving DecidableEq, Repr

/-- Embeds `get_session`: open a fresh session, run the body; on success
commit then close, on exception roll back, close, and re-raise. -/
def get_session (body : Except String α) :
    Except String α × List SessionEvent :=
  match body with
  | .ok a => (.ok a, [.opened, .committed, .closed])
  | .error e => (.error e, [.opened, .rolledBack, .closed])

/-- Embeds `execute_query`: run the query inside one `get_session` scope
and format the result. -/
def execute_query (runQ : String → Except String SqlResult) (q : String) :
    Except String String × List SessionEvent :=
  get_session ((runQ q).map execute_query_body)

/-! ## Theorems for the formatting and session claims -/

/-- Normal form of the output list: header, separator, the pipe-joined
first 100 rows, and the omitted-count element exactly when over 100 rows. -/
theorem format_rows_output_eq (columns : List String)
    (rows : List (List String)) :
    format_rows_output columns rows =
      [String.intercalate " | " columns,
        String.mk (List.replicate (String.intercalate " | " columns).length '-')]
      ++ (rows.take 100).map (String.intercalate " | ")
      ++ (if 100 < rows.length then
            ["\n... (" ++ toString (rows.length - 100) ++ " more rows)"]
          else []) := by
  unfold format_rows_output
  by_cases h : 100 < rows.length <;> simp [h]

/-- C3: for a nonempty row set of `n` rows, the elements of the output
list after the header and separator are exactly the pipe-joins of the
first 100 fetched rows, in their original order (`rows.take 100`, which
has length `min n 100`), followed by a trailing omitted-rows element
reporting `n - 100` exactly when `n > 100` (and by nothing otherwise). -/
theorem execute_query_row_cap (columns : List String)
    (rows : List (List String)) (hne : rows ≠ []) :
    execute_query_body (.withRows columns rows) =
      String.intercalate "\n" (format_rows_output columns rows) ∧
    (format_rows_output columns rows).drop 2 =
      (rows.take 100).map (String.intercalate " | ")
        ++ (if 100 < rows.length then
              ["\n... (" ++ toString (rows.length - 100) ++ " more rows)"]
            else []) ∧
    (rows.take 100).length = min rows.length 100 ∧
    (100 < rows.length →
      (format_rows_output columns rows).getLast? =
        some ("\n... (" ++ toString (rows.length - 100) ++ " more rows)")) := by
  refine ⟨by simp [execute_query_body, hne], ?_, ?_, ?_⟩
  · rw [format_rows_output_eq]
    simp
  · simp [List.length_take, Nat.min_comm]
  · intro h
    rw [format_rows_output_eq, if_pos h]
    refine (List.getLast?_append_of_ne_nil _ ?_).trans rfl
    simp

/-- Witness for C3 at a concrete input: two rows of one column each are
rendered after the header and separator, in order, with no trailing
omitted-rows element. -/
theorem execute_query_row_cap_witness :
    (format_rows_output ["a", "b"] [["1", "2"], ["3", "4"]]).drop 2 =
      ["1 | 2", "3 | 4"] := by
  have h := (execute_query_row_cap ["a", "b"] [["1", "2"], ["3", "4"]]
    (by decide)).2.1
  rw [h]
  decide

/-- C4: for a nonempty row set, the first element of the output list is
the column names joined by " | ", the second is a run of '-' characters of
exactly the header's length, and each displayed data row element is that
row's values joined by " | ". -/
theorem execute_query_table_format (columns : List String)
    (rows : List (List String)) (hne : rows ≠ []) :
    ∃ sep : String,
      (format_rows_output columns rows).take 2 =
        [String.intercalate " | " columns, sep] ∧
      sep.toList =
        List.replicate (String.intercalate " | " columns).length '-' ∧
      sep.length = (String.intercalate " | " columns).length ∧
      ((format_rows_output columns rows).drop 2).take (rows.take 100).length =
        (rows.take 100).map (String.intercalate " | ") := by
  refine ⟨String.mk (List.replicate
    (String.intercalate " | " columns).length '-'), ?_, rfl, ?_, ?_⟩
  · rw [format_rows_output_eq]
    rfl
  · show (List.replicate (String.intercalate " | " columns).length '-').length
      = (String.intercalate " | " columns).length
    exact List.length_replicate _ _
  · rw [format_rows_output_eq]
    rw [show (2 : Nat) = [String.intercalate " | " columns,
      String.mk (List.replicate (String.intercalate " | " columns).length
        '-')].length from rfl]
    rw [List.append_assoc, List.drop_left, ← List.length_map (rows.take 100)
      (String.intercalate " | "), List.take_left]

/-- Witness for C4 at a concrete input. -/
theorem execute_query_table_format_witness :
    ∃ sep : String,
      (format_rows_output ["a", "b"] [["1", "2"]]).take 2 =
        ["a | b", sep] ∧
      sep.toList = List.replicate ("a | b".length) '-' ∧
      sep.length = ("a | b".length) ∧
      ((format_rows_output ["a", "b"] [["1", "2"]]).drop 2).take 1 =
        ["1 | 2"] := by
  have h := execute_query_table_format ["a", "b"] [["1", "2"]] (by decide)
  simpa using h

/-- C6: every call to `execute_query` opens exactly one session whose
last event is `closed`; on success the trace is open-commit-close and the
formatted result is returned, on exception it is open-rollback-close (no
commit) and the exception is re-raised. -/
theorem execute_query_session_lifecycle
    (runQ : String → Except String SqlResult) (q : String) :
    (execute_query runQ q).2.count .opened = 1 ∧
    (execute_query runQ q).2.getLast? = some .closed ∧
    (∀ r, runQ q = .ok r →
      (execute_query runQ q).2 = [.opened, .committed, .closed] ∧
      (execute_query runQ q).1 = .ok (execute_query_body r)) ∧
    (∀ e, runQ q = .error e →
      (execute_query runQ q).2 = [.opened, .rolledBack, .closed] ∧
      (execute_query runQ q).1 = .error e) := by
  unfold execute_query get_session
  cases hq : runQ q <;> simp [hq, Except.map]

/-- Witness for C6 at a concrete input: a failing query rolls back and
re-raises. -/
theorem execute_query_session_lifecycle_witness :
    (execute_query (fun _ => Except.error "down") "SELECT 1").2 =
      [.opened, .rolledBack, .closed] ∧
    (execute_query (fun _ => Except.error "down") "SELECT 1").1 =
      Except.error "down" :=
  (execute_query_session_lifecycle (fun _ => Except.error "down")
    "SELECT 1").2.2.2 "down" rfl

/-- C10: a row-returning execution that fetched zero rows yields the fixed
no-rows message, and a rowless statement yields the fixed success
message. -/
theorem execute_query_empty_results (columns : List String) :
    execute_query_body (.withRows columns []) =
      "Query executed successfully. No rows returned." ∧
    execute_query_body .withoutRows = "Query executed successfully." :=
  ⟨rfl, rfl⟩

/-! ## Interactive CLI loop (pydantic_sql_agent.py lines 251-260 and
sql_agent.py lines 64-73; both scripts share the same loop body)

One iteration reads a line, strips it, breaks on quit/exit/q (after
lower-casing), re-prompts on an empty result, and otherwise invokes the
agent on the stripped question. -/

/-- Outcome of one iteration of the interactive loop. -/
inductive LoopAction
  | halt
  | reprompt
  | invoke (question : String)
deriving DecidableEq, Repr

/-- Embeds one iteration: `question = input().strip()`, break when
`question.lower() in ['quit', 'exit', 'q']`, `continue` when empty,
otherwise run the agent on `question` (the stripped line). -/
def loop_step (line : String) : LoopAction :=
  if pyLower (pyStrip line) = "quit" ∨ pyLower (pyStrip line) = "exit" ∨
      pyLower (pyStrip line) = "q" then
    .halt
  else if pyStrip line = "" then
    .reprompt
  else
    .invoke (pyStrip line)

/-- Runs the loop over a list of stdin lines, collecting the questions
passed to the agent; processing stops at the first halting line. -/
def run_loop : List String → List String
  | [] => []
  | line :: rest =>
    match loop_step line with
    | .halt => []
    | .reprompt => run_loop rest
    | .invoke q => q :: run_loop rest

/-- C8: an iteration halts the loop exactly when the stripped, lower-cased
input is "quit", "exit" or "q"; a whitespace-only input re-prompts, and a
re-prompting or halting line contributes no agent invocation. -/
theorem loop_step_termination (line : String) :
    (loop_step line = .halt ↔
      (pyLower (pyStrip line) = "quit" ∨ pyLower (pyStrip line) = "exit" ∨
        pyLower (pyStrip line) = "q")) ∧
    (pyStrip line = "" → loop_step line = .reprompt) ∧
    (∀ rest, pyStrip line = "" →
      run_loop (line :: rest) = run_loop rest) ∧
    (∀ rest, loop_step line = .halt → run_loop (line :: rest) = []) := by
  have hstep : pyStrip line = "" → loop_step line = .reprompt := by
    intro he
    unfold loop_step
    rw [he]
    decide
  refine ⟨?_, hstep, ?_, ?_⟩
  · unfold loop_step
    by_cases h : pyLower (pyStrip line) = "quit" ∨
        pyLower (pyStrip line) = "exit" ∨ pyLower (pyStrip line) = "q"
    · simp [h]
    · by_cases he : pyStrip line = "" <;> simp [h, he] <;> decide
  · intro rest he
    simp [run_loop, hstep he]
  · intro rest hh
    simp [run_loop, hh]

/-- Witness for C8 at a concrete input: a whitespace-only line re-prompts
and contributes no agent invocation. -/
theorem loop_step_termination_witness :
    run_loop ("   " :: ["how many customers?"]) =
      run_loop ["how many customers?"] :=
  (loop_step_termination "   ").2.2.1 ["how many customers?"] (by decide)

/-! ## Setup and teardown error paths (setup_database.py lines 553-597,
remove_database.py lines 109-151)

Each step of `setup_database.main` (`create_database`, `create_tables`,
`populate_data`, `create_readonly_user`) wraps its body in `try/except`
that prints the error and re-raises; `main` runs them in order, catches
any exception, prints "Setup failed", and returns 1, which `exit(main())`
turns into the process exit code (0 on success).  `remove_database.main`
prints the error and re-raises it, and an uncaught exception makes the
Python process exit with code 1.  Step bodies are modelled as
`Except String Unit` outcomes; the `List String` components are the
error lines printed. -/

/-- Embeds the per-step `try/except: print(...); raise` wrapper used by
every step function of the setup script: the outcome is returned
unchanged (re-raised), and the error is printed first. -/
def step_report (label : String) (raw : Except String Unit) :
    Except String Unit × List String :=
  match raw with
  | .ok _ => (.ok (), [])
  | .error e => (.error e, [label ++ ": " ++ e])

/-- Runs step outcomes in order, stopping at the first exception. -/
def run_steps : List (Except String Unit) → Except String Unit
  | [] => .ok ()
  | step :: rest =>
    match step with
    | .ok _ => run_steps rest
    | .error e => .error e

/-- Embeds `setup_database.main` plus `exit(main())`: the first component
is the process exit code (0 on success, 1 when some step raised), the
second the failure line printed. -/
def setup_main (steps : List (Except String Unit)) : Nat × List String :=
  match run_steps steps with
  | .ok _ => (0, [])
  | .error e => (1, ["❌ Setup failed: " ++ e])

/-- Embeds `remove_database.main`: on failure the error is printed and
re-raised (the outcome is propagated). -/
def removal_main (raw : Except String Unit) :
    Except String Unit × List String :=
  match raw with
  | .ok _ => (.ok (), [])
  | .error e => (.error e, ["✗ Error during removal process: " ++ e])

/-- Exit code of a Python process whose top level finished with the given
outcome: an uncaught exception exits with code 1. -/
def process_exit_code : Except String Unit → Nat
  | .ok _ => 0
  | .error _ => 1

/-- C9: every setup step prints and re-raises its error; when any step of
setup raises, the process exits with code 1 (printing the failure), and
with code 0 when all succeed; the teardown script prints, re-raises, and
exits with code 1 on failure. -/
theorem setup_teardown_fail_fast :
    (∀ label e, step_report label (.error e) =
      (.error e, [label ++ ": " ++ e])) ∧
    (∀ label raw, (step_report label raw).1 = raw) ∧
    (∀ steps e, Except.error e ∈ steps → (setup_main steps).1 = 1) ∧
    (∀ steps, (∀ s ∈ steps, s = .ok ()) → setup_main steps = (0, [])) ∧
    (∀ e, removal_main (.error e) =
      (.error e, ["✗ Error during removal process: " ++ e]) ∧
      process_exit_code (removal_main (.error e)).1 = 1) := by
  refine ⟨fun _ _ => rfl, ?_, ?_, ?_, fun _ => ⟨rfl, rfl⟩⟩
  · intro label raw
    cases raw with
    | ok a => rfl
    | error e => rfl
  · intro steps e hmem
    have hrun : ∃ e', run_steps steps = .error e' := by
      induction steps with
      | nil => cases hmem
      | cons s rest ih =>
        cases s with
        | ok a =>
          rcases List.mem_cons.mp hmem with h | h
          · simp at h
          · simpa [run_steps] using ih h
        | error e' => exact ⟨e', rfl⟩
    obtain ⟨e', he'⟩ := hrun
    simp [setup_main, he']
  · intro steps hall
    have : run_steps steps = .ok () := by
      induction steps with
      | nil => rfl
      | cons s rest ih =>
        have hs := hall s (List.mem_cons_self s rest)
        subst hs
        exact ih (fun x hx => hall x (List.mem_cons_of_mem _ hx))
    simp [setup_main, this]

/-- Witness for C9 at a concrete input: a failing populate step makes
setup exit with code 1. -/
theorem setup_teardown_fail_fast_witness :
    (setup_main [.ok (), .ok (), .error "connection refused", .ok ()]).1
      = 1 :=
  setup_teardown_fail_fast.2.2.1
    [.ok (), .ok (), .error "connection refused", .ok ()]
    "connection refused" (by simp)

/-! ## Schema rendering and truncation (pydantic_sql_agent.py, lines 31-97)

The introspected schema is modelled as the data the SQLAlchemy inspector
returns: per table its name, columns (name, stringified type, nullable
flag, optional default), the primary-key constrained columns, and foreign
keys.  The cl100k_base token count is modelled as an arbitrary function
`enc : String → Nat` (the tokenizer is external); `_load_full_schema` and
the truncated regeneration are rendered exactly as the two loops do. -/

/-- One column as `inspector.get_columns` reports it. -/
structure ColumnInfo where
  name : String
  type : String
  nullable : Bool
  default : Option String
deriving DecidableEq, Repr

/-- One foreign key as `inspector.get_foreign_keys` reports it. -/
structure ForeignKeyInfo where
  constrained_columns : List String
  referred_table : String
  referred_columns : List String
deriving DecidableEq, Repr

/-- One table of the introspected schema. -/
structure TableInfo where
  name : String
  columns : List ColumnInfo
  pk_constrained_columns : List String
  foreign_keys : List ForeignKeyInfo
deriving DecidableEq, Repr

/-- The introspected schema: the tables in `get_table_names` order. -/
structure SchemaInfo where
  tables : List TableInfo
deriving DecidableEq, Repr

/-- Column line of the full rendering:
`  - {name}: {type} {NULL|NOT NULL}{ DEFAULT d}` (the default is shown
only when truthy, i.e. present and nonempty). -/
def fullColumnLine (c : ColumnInfo) : String :=
  let nullable := if c.nullable then "NULL" else "NOT NULL"
  let dflt := match c.default with
    | some d => if d = "" then "" else " DEFAULT " ++ d
    | none => ""
  "  - " ++ c.name ++ ": " ++ c.type ++ " " ++ nullable ++ dflt

/-- The `schema_parts` entries contributed by one table in
`_load_full_schema`. -/
def fullTableParts (t : TableInfo) : List String :=
  ("\nTable: " ++ t.name) ::
  (t.columns.map fullColumnLine ++
    ((if t.pk_constrained_columns ≠ [] then
        ["  PRIMARY KEY: " ++
          String.intercalate ", " t.pk_constrained_columns]
      else []) ++
      t.foreign_keys.map (fun fk =>
        "  FOREIGN KEY: " ++ String.intercalate ", " fk.constrained_columns
          ++ " -> " ++ fk.referred_table ++ "(" ++
          String.intercalate ", " fk.referred_columns ++ ")")))

/-- Embeds `_load_full_schema`: the newline-join of all parts. -/
def load_full_schema (s : SchemaInfo) : String :=
  String.intercalate "\n" (s.tables.flatMap fullTableParts)

/-- Column line of the truncated rendering: `  - {name}: {type}` only. -/
def truncColumnLine (c : ColumnInfo) : String :=
  "  - " ++ c.name ++ ": " ++ c.type

/-- The `schema_parts` entries contributed by one table in the truncated
regeneration: column names with types, `PK:` and `FK:` lines kept. -/
def truncTableParts (t : TableInfo) : List String :=
  ("\nTable: " ++ t.name) ::
  (t.columns.map truncColumnLine ++
    ((if t.pk_constrained_columns ≠ [] then
        ["  PK: " ++ String.intercalate ", " t.pk_constrained_columns]
      else []) ++
      t.foreign_keys.map (fun fk =>
        "  FK: " ++ String.intercalate ", " fk.constrained_columns
          ++ " -> " ++ fk.referred_table)))

/-- The truncated schema text regenerated when the budget is exceeded. -/
def truncated_schema (s : SchemaInfo) : String :=
  String.intercalate "\n" (s.tables.flatMap truncTableParts)

/-- Embeds `get_schema_for_prompt`: return the preloaded full schema when
its token count fits the budget, else regenerate the truncated form. -/
def get_schema_for_prompt (enc : String → Nat) (s : SchemaInfo)
    (max_tokens : Nat) : String :=
  if enc (load_full_schema s) ≤ max_tokens then load_full_schema s
  else truncated_schema s

/-- Replaces a column's nullability and default, the two annotations the
truncated rendering drops. -/
def setNullableDefault (c : ColumnInfo) (b : Bool) (d : Option String) :
    ColumnInfo :=
  ⟨c.name, c.type, b, d⟩

/-- C5: the full preloaded schema is returned exactly when its token count
fits the budget; otherwise the regenerated shorter form is returned, whose
lines still contain every table name, every column name with its type, and
a line for every primary-key and foreign-key constraint, while the column
lines no longer depend on nullability or defaults. -/
theorem get_schema_for_prompt_truncation (enc : String → Nat)
    (s : SchemaInfo) (max_tokens : Nat) :
    (enc (load_full_schema s) ≤ max_tokens →
      get_schema_for_prompt enc s max_tokens = load_full_schema s) ∧
    (¬ enc (load_full_schema s) ≤ max_tokens →
      get_schema_for_prompt enc s max_tokens = truncated_schema s ∧
      truncated_schema s =
        String.intercalate "\n" (s.tables.flatMap truncTableParts)) ∧
    (load_full_schema s ≠ truncated_schema s →
      (get_schema_for_prompt enc s max_tokens = load_full_schema s ↔
        enc (load_full_schema s) ≤ max_tokens)) ∧
    (∀ t ∈ s.tables,
      ("\nTable: " ++ t.name) ∈ s.tables.flatMap truncTableParts ∧
      (∀ c ∈ t.columns,
        ("  - " ++ c.name ++ ": " ++ c.type) ∈
          s.tables.flatMap truncTableParts) ∧
      (t.pk_constrained_columns ≠ [] →
        ("  PK: " ++ String.intercalate ", " t.pk_constrained_columns) ∈
          s.tables.flatMap truncTableParts) ∧
      (∀ fk ∈ t.foreign_keys,
        ("  FK: " ++ String.intercalate ", " fk.constrained_columns ++
            " -> " ++ fk.referred_table) ∈
          s.tables.flatMap truncTableParts)) ∧
    (∀ c b d, truncColumnLine (setNullableDefault c b d) =
      truncColumnLine c) := by
  refine ⟨?_, ?_, ?_, ?_, fun _ _ _ => rfl⟩
  · intro h
    simp [get_schema_for_prompt, h]
  · intro h
    exact ⟨by simp [get_schema_for_prompt, h], rfl⟩
  · intro hne
    constructor
    · intro heq
      by_contra hgt
      exact hne (by simpa [get_schema_for_prompt, hgt] using heq.symm)
    · intro h
      simp [get_schema_for_prompt, h]
  · intro t ht
    refine ⟨?_, ?_, ?_, ?_⟩
    · exact List.mem_flatMap.mpr ⟨t, ht, by simp [truncTableParts]⟩
    · intro c hc
      refine List.mem_flatMap.mpr ⟨t, ht, ?_⟩
      simp only [truncTableParts, List.mem_cons, List.mem_append]
      exact Or.inr (Or.inl (List.mem_map_of_mem truncColumnLine hc))
    · intro hpk
      refine List.mem_flatMap.mpr ⟨t, ht, ?_⟩
      simp [truncTableParts, hpk]
    · intro fk hfk
      refine List.mem_flatMap.mpr ⟨t, ht, ?_⟩
      simp only [truncTableParts, List.mem_cons, List.mem_append]
      refine Or.inr (Or.inr (Or.inr ?_))
      exact List.mem_map_of_mem _ hfk

set_option maxRecDepth 4000 in
/-- Witness for C5 at a concrete schema and budget: an over-budget schema
is truncated and keeps the table name, the typed column, and the key
constraints. -/
theorem get_schema_for_prompt_truncation_witness :
    get_schema_for_prompt (fun t => t.length)
      ⟨[⟨"orders", [⟨"order_id", "INTEGER", false, none⟩], ["order_id"],
        [⟨["customer_id"], "customers", ["customer_id"]⟩]⟩]⟩ 10 =
      truncated_schema
        ⟨[⟨"orders", [⟨"order_id", "INTEGER", false, none⟩], ["order_id"],
          [⟨["customer_id"], "customers", ["customer_id"]⟩]⟩]⟩ := by
  have h := (get_schema_for_prompt_truncation (fun t => t.length)
    ⟨[⟨"orders", [⟨"order_id", "INTEGER", false, none⟩], ["order_id"],
      [⟨["customer_id"], "customers", ["customer_id"]⟩]⟩]⟩ 10).2.1
  exact (h (by decide)).1

/-! ## Database setup seed data and populate step (setup_database.py,
lines 8-12 and 129-506)

The state carries the rows of the four tables (surrogate keys and
generated timestamps are the database's and not modelled).  Customers are
inserted with `ON CONFLICT (email) DO NOTHING`, the other batches are
plain inserts; every batch runs only when the table's current row count
is below its configured minimum. -/

/-- `MIN_CUSTOMERS` of setup_database.py. -/
def MIN_CUSTOMERS : Nat := 50

/-- `MIN_PRODUCTS` of setup_database.py. -/
def MIN_PRODUCTS : Nat := 30

/-- `MIN_ORDERS` of setup_database.py. -/
def MIN_ORDERS : Nat := 100

/-- `MIN_ORDER_ITEMS` of setup_database.py. -/
def MIN_ORDER_ITEMS : Nat := 150

/-- The 50 seed customers of `populate_data` (first, last, email). -/
def customers_data : List (String × String × String) := [
  ("John", "Doe", "john.doe@email.com"),
  ("Jane", "Smith", "jane.smith@email.com"),
  ("Bob", "Johnson", "bob.johnson@email.com"),
  ("Alice", "Williams", "alice.williams@email.com"),
  ("Charlie", "Brown", "charlie.brown@email.com"),
  ("Emma", "Davis", "emma.davis@email.com"),
  ("Michael", "Wilson", "michael.wilson@email.com"),
  ("Sarah", "Moore", "sarah.moore@email.com"),
  ("David", "Taylor", "david.taylor@email.com"),
  ("Lisa", "Anderson", "lisa.anderson@email.com"),
  ("James", "Thomas", "james.thomas@email.com"),
  ("Emily", "Jackson", "emily.jackson@email.com"),
  ("Robert", "White", "robert.white@email.com"),
  ("Jennifer", "Harris", "jennifer.harris@email.com"),
  ("William", "Martin", "william.martin@email.com"),
  ("Linda", "Thompson", "linda.thompson@email.com"),
  ("Richard", "Garcia", "richard.garcia@email.com"),
  ("Patricia", "Martinez", "patricia.martinez@email.com"),
  ("Thomas", "Robinson", "thomas.robinson@email.com"),
  ("Mary", "Clark", "mary.clark@email.com"),
  ("Christopher", "Rodriguez", "christopher.rodriguez@email.com"),
  ("Nancy", "Lewis", "nancy.lewis@email.com"),
  ("Daniel", "Lee", "daniel.lee@email.com"),
  ("Karen", "Walker", "karen.walker@email.com"),
  ("Matthew", "Hall", "matthew.hall@email.com"),
  ("Betty", "Allen", "betty.allen@email.com"),
  ("Anthony", "Young", "anthony.young@email.com"),
  ("Sandra", "Hernandez", "sandra.hernandez@email.com"),
  ("Mark", "King", "mark.king@email.com"),
  ("Ashley", "Wright", "ashley.wright@email.com"),
  ("Donald", "Lopez", "donald.lopez@email.com"),
  ("Kimberly", "Hill", "kimberly.hill@email.com"),
  ("Steven", "Scott", "steven.scott@email.com"),
  ("Donna", "Green", "donna.green@email.com"),
  ("Paul", "Adams", "paul.adams@email.com"),
  ("Carol", "Baker", "carol.baker@email.com"),
  ("Andrew", "Gonzalez", "andrew.gonzalez@email.com"),
  ("Michelle", "Nelson", "michelle.nelson@email.com"),
  ("Joshua", "Carter", "joshua.carter@email.com"),
  ("Amanda", "Mitchell", "amanda.mitchell@email.com"),
  ("Kevin", "Perez", "kevin.perez@email.com"),
  ("Melissa", "Roberts", "melissa.roberts@email.com"),
  ("Brian", "Turner", "brian.turner@email.com"),
  ("Deborah", "Phillips", "deborah.phillips@email.com"),
  ("George", "Campbell", "george.campbell@email.com"),
  ("Stephanie", "Parker", "stephanie.parker@email.com"),
  ("Edward", "Evans", "edward.evans@email.com"),
  ("Rebecca", "Edwards", "rebecca.edwards@email.com"),
  ("Ronald", "Collins", "ronald.collins@email.com"),
  ("Laura", "Stewart", "laura.stewart@email.com")
]

/-- The 30 seed products of `populate_data` (name, description, price,
stock quantity, category); prices are the decimal literals as rationals. -/
def products_data : List (String × String × ℚ × Nat × String) := [
  ("Laptop Pro 15\"", "High-performance laptop with 16GB RAM", (1299.99 : ℚ), 50, "Electronics"),
  ("Wireless Mouse", "Ergonomic wireless mouse with USB receiver", (29.99 : ℚ), 200, "Electronics"),
  ("Mechanical Keyboard", "RGB mechanical keyboard with blue switches", (89.99 : ℚ), 100, "Electronics"),
  ("USB-C Hub", "7-in-1 USB-C hub with HDMI and ethernet", (49.99 : ℚ), 150, "Electronics"),
  ("Noise-Canceling Headphones", "Premium over-ear headphones", (299.99 : ℚ), 75, "Electronics"),
  ("4K Monitor 27\"", "Ultra HD monitor with HDR support", (449.99 : ℚ), 60, "Electronics"),
  ("Webcam HD", "1080p webcam with built-in microphone", (79.99 : ℚ), 120, "Electronics"),
  ("Desk Lamp LED", "Adjustable LED desk lamp with USB charging", (39.99 : ℚ), 180, "Home & Office"),
  ("Office Chair", "Ergonomic office chair with lumbar support", (249.99 : ℚ), 40, "Furniture"),
  ("Standing Desk", "Electric height-adjustable standing desk", (599.99 : ℚ), 25, "Furniture"),
  ("Backpack Laptop", "Water-resistant laptop backpack with USB port", (59.99 : ℚ), 100, "Accessories"),
  ("Phone Stand", "Adjustable aluminum phone stand", (19.99 : ℚ), 250, "Accessories"),
  ("Cable Organizer", "Cable management box with 5 slots", (24.99 : ℚ), 200, "Accessories"),
  ("Power Bank 20000mAh", "Fast-charging portable power bank", (39.99 : ℚ), 150, "Electronics"),
  ("Bluetooth Speaker", "Portable waterproof Bluetooth speaker", (69.99 : ℚ), 130, "Electronics"),
  ("Smart Watch", "Fitness tracker with heart rate monitor", (199.99 : ℚ), 80, "Electronics"),
  ("Tablet 10\"", "Android tablet with 64GB storage", (279.99 : ℚ), 70, "Electronics"),
  ("External SSD 1TB", "Portable solid-state drive USB 3.2", (119.99 : ℚ), 100, "Electronics"),
  ("Gaming Mouse Pad", "Large RGB gaming mouse pad", (34.99 : ℚ), 160, "Accessories"),
  ("Laptop Stand", "Aluminum laptop stand with cooling", (44.99 : ℚ), 140, "Accessories"),
  ("Wireless Charger", "Fast wireless charging pad", (29.99 : ℚ), 170, "Electronics"),
  ("HDMI Cable 6ft", "4K HDMI 2.1 cable", (14.99 : ℚ), 300, "Electronics"),
  ("Screen Protector", "Tempered glass screen protector", (12.99 : ℚ), 400, "Accessories"),
  ("Phone Case", "Shockproof phone case with kickstand", (24.99 : ℚ), 350, "Accessories"),
  ("Portable Monitor", "15.6\" USB-C portable monitor", (229.99 : ℚ), 55, "Electronics"),
  ("Microphone USB", "Condenser USB microphone for streaming", (89.99 : ℚ), 90, "Electronics"),
  ("Laptop Sleeve", "Neoprene laptop sleeve 13-15\"", (19.99 : ℚ), 220, "Accessories"),
  ("Desk Organizer", "Wooden desk organizer with drawers", (34.99 : ℚ), 110, "Home & Office"),
  ("Whiteboard", "Magnetic dry-erase whiteboard 24x36\"", (49.99 : ℚ), 65, "Home & Office"),
  ("Notebook Set", "Pack of 5 hardcover notebooks", (29.99 : ℚ), 180, "Home & Office")
]

/-- The 100 seed orders of `populate_data` (customer id, total, status). -/
def orders_data : List (Nat × ℚ × String) := [
  (1, (1329.98 : ℚ), "completed"),
  (2, (89.99 : ℚ), "completed"),
  (3, (549.98 : ℚ), "completed"),
  (4, (299.99 : ℚ), "shipped"),
  (5, (1749.98 : ℚ), "completed"),
  (1, (179.97 : ℚ), "completed"),
  (6, (449.99 : ℚ), "completed"),
  (7, (289.98 : ℚ), "shipped"),
  (8, (599.99 : ℚ), "pending"),
  (9, (119.98 : ℚ), "completed"),
  (10, (649.97 : ℚ), "completed"),
  (2, (349.98 : ℚ), "completed"),
  (11, (89.99 : ℚ), "cancelled"),
  (12, (229.99 : ℚ), "completed"),
  (13, (1099.98 : ℚ), "shipped"),
  (14, (79.99 : ℚ), "completed"),
  (15, (524.97 : ℚ), "completed"),
  (3, (159.97 : ℚ), "completed"),
  (16, (699.98 : ℚ), "pending"),
  (17, (249.99 : ℚ), "completed"),
  (18, (419.97 : ℚ), "completed"),
  (19, (189.98 : ℚ), "shipped"),
  (20, (899.97 : ℚ), "completed"),
  (4, (279.99 : ℚ), "completed"),
  (21, (149.98 : ℚ), "completed"),
  (22, (329.98 : ℚ), "cancelled"),
  (23, (199.99 : ℚ), "completed"),
  (24, (479.97 : ℚ), "shipped"),
  (25, (119.99 : ℚ), "completed"),
  (5, (849.98 : ℚ), "completed"),
  (26, (89.99 : ℚ), "completed"),
  (27, (359.97 : ℚ), "pending"),
  (28, (229.98 : ℚ), "completed"),
  (29, (599.99 : ℚ), "completed"),
  (30, (169.97 : ℚ), "completed"),
  (6, (1299.99 : ℚ), "shipped"),
  (31, (449.98 : ℚ), "completed"),
  (32, (89.99 : ℚ), "completed"),
  (33, (729.97 : ℚ), "completed"),
  (34, (299.99 : ℚ), "pending"),
  (7, (189.98 : ℚ), "completed"),
  (35, (549.98 : ℚ), "completed"),
  (36, (399.97 : ℚ), "cancelled"),
  (37, (279.99 : ℚ), "completed"),
  (38, (149.98 : ℚ), "shipped"),
  (8, (599.99 : ℚ), "completed"),
  (39, (219.98 : ℚ), "completed"),
  (40, (899.97 : ℚ), "completed"),
  (9, (329.98 : ℚ), "pending"),
  (41, (179.97 : ℚ), "completed"),
  (10, (449.99 : ℚ), "completed"),
  (42, (89.99 : ℚ), "completed"),
  (43, (649.97 : ℚ), "shipped"),
  (44, (229.99 : ℚ), "completed"),
  (11, (799.98 : ℚ), "completed"),
  (45, (119.99 : ℚ), "cancelled"),
  (46, (479.97 : ℚ), "completed"),
  (12, (349.98 : ℚ), "completed"),
  (47, (199.99 : ℚ), "pending"),
  (48, (589.97 : ℚ), "completed"),
  (13, (279.99 : ℚ), "completed"),
  (49, (149.98 : ℚ), "shipped"),
  (50, (999.97 : ℚ), "completed"),
  (14, (89.99 : ℚ), "completed"),
  (15, (529.98 : ℚ), "completed"),
  (1, (379.97 : ℚ), "pending"),
  (16, (229.99 : ℚ), "completed"),
  (17, (699.98 : ℚ), "cancelled"),
  (2, (149.98 : ℚ), "completed"),
  (18, (449.99 : ℚ), "completed"),
  (19, (319.97 : ℚ), "shipped"),
  (3, (189.98 : ℚ), "completed"),
  (20, (849.97 : ℚ), "completed"),
  (21, (279.99 : ℚ), "pending"),
  (4, (599.99 : ℚ), "completed"),
  (22, (129.98 : ℚ), "completed"),
  (23, (479.97 : ℚ), "completed"),
  (5, (349.98 : ℚ), "shipped"),
  (24, (199.99 : ℚ), "completed"),
  (25, (729.97 : ℚ), "cancelled"),
  (6, (89.99 : ℚ), "completed"),
  (26, (449.99 : ℚ), "completed"),
  (27, (269.97 : ℚ), "pending"),
  (7, (599.99 : ℚ), "completed"),
  (28, (179.98 : ℚ), "shipped"),
  (8, (899.97 : ℚ), "completed"),
  (29, (329.98 : ℚ), "completed"),
  (30, (149.98 : ℚ), "completed"),
  (9, (549.98 : ℚ), "pending"),
  (31, (229.99 : ℚ), "completed"),
  (32, (699.97 : ℚ), "cancelled"),
  (10, (119.99 : ℚ), "completed"),
  (33, (479.97 : ℚ), "shipped"),
  (34, (299.99 : ℚ), "completed"),
  (11, (849.98 : ℚ), "completed"),
  (35, (189.98 : ℚ), "pending"),
  (12, (649.97 : ℚ), "completed"),
  (36, (329.98 : ℚ), "completed"),
  (13, (99.99 : ℚ), "completed"),
  (37, (529.97 : ℚ), "shipped")
]

/-- The 204 seed order items of `populate_data` (order id, product id,
quantity, price). -/
def order_items_data : List (Nat × Nat × Nat × ℚ) := [
  (1, 1, 1, (1299.99 : ℚ)), (1, 2, 1, (29.99 : ℚ)), (2, 3, 1, (89.99 : ℚ)),
  (3, 1, 1, (1299.99 : ℚ)), (3, 4, 5, (49.99 : ℚ)), (4, 5, 1, (299.99 : ℚ)),
  (5, 1, 1, (1299.99 : ℚ)), (5, 6, 1, (449.99 : ℚ)), (6, 7, 1, (79.99 : ℚ)),
  (6, 2, 2, (29.99 : ℚ)), (6, 8, 1, (39.99 : ℚ)), (7, 6, 1, (449.99 : ℚ)),
  (8, 9, 1, (249.99 : ℚ)), (8, 8, 1, (39.99 : ℚ)), (8, 10, 1, (599.99 : ℚ)),
  (9, 10, 1, (599.99 : ℚ)), (10, 11, 2, (59.99 : ℚ)), (11, 12, 1, (19.99 : ℚ)),
  (11, 13, 1, (24.99 : ℚ)), (11, 14, 1, (39.99 : ℚ)), (11, 15, 9, (69.99 : ℚ)),
  (12, 16, 1, (199.99 : ℚ)), (12, 17, 1, (279.99 : ℚ)), (12, 2, 2, (29.99 : ℚ)),
  (13, 3, 1, (89.99 : ℚ)), (14, 18, 1, (119.99 : ℚ)), (14, 19, 3, (34.99 : ℚ)),
  (14, 20, 1, (44.99 : ℚ)), (15, 1, 1, (1299.99 : ℚ)), (15, 21, 4, (29.99 : ℚ)),
  (15, 22, 5, (14.99 : ℚ)), (16, 7, 1, (79.99 : ℚ)), (17, 23, 10, (12.99 : ℚ)),
  (17, 24, 10, (24.99 : ℚ)), (17, 27, 5, (19.99 : ℚ)), (18, 2, 2, (29.99 : ℚ)),
  (18, 4, 2, (49.99 : ℚ)), (18, 13, 1, (24.99 : ℚ)), (19, 25, 3, (229.99 : ℚ)),
  (19, 22, 2, (14.99 : ℚ)), (20, 9, 1, (249.99 : ℚ)), (21, 26, 1, (89.99 : ℚ)),
  (21, 21, 3, (29.99 : ℚ)), (21, 28, 3, (34.99 : ℚ)), (21, 12, 4, (19.99 : ℚ)),
  (22, 15, 2, (69.99 : ℚ)), (22, 19, 1, (34.99 : ℚ)), (22, 20, 1, (44.99 : ℚ)),
  (23, 29, 4, (49.99 : ℚ)), (24, 30, 1, (29.99 : ℚ)), (24, 11, 1, (59.99 : ℚ)),
  (24, 27, 3, (19.99 : ℚ)), (24, 28, 3, (34.99 : ℚ)), (25, 16, 1, (199.99 : ℚ)),
  (26, 17, 1, (279.99 : ℚ)), (27, 14, 2, (39.99 : ℚ)), (27, 18, 2, (119.99 : ℚ)),
  (27, 21, 3, (29.99 : ℚ)), (28, 5, 1, (299.99 : ℚ)), (29, 1, 1, (1299.99 : ℚ)),
  (29, 23, 10, (12.99 : ℚ)), (29, 24, 10, (24.99 : ℚ)), (30, 3, 1, (89.99 : ℚ)),
  (31, 6, 1, (449.99 : ℚ)), (31, 7, 1, (79.99 : ℚ)), (31, 2, 1, (29.99 : ℚ)),
  (32, 10, 1, (599.99 : ℚ)), (33, 2, 1, (29.99 : ℚ)), (34, 25, 3, (229.99 : ℚ)),
  (34, 22, 3, (14.99 : ℚ)), (35, 5, 1, (299.99 : ℚ)), (36, 8, 1, (39.99 : ℚ)),
  (36, 12, 1, (19.99 : ℚ)), (36, 13, 1, (24.99 : ℚ)), (36, 19, 2, (34.99 : ℚ)),
  (37, 1, 1, (1299.99 : ℚ)), (38, 3, 1, (89.99 : ℚ)), (39, 26, 1, (89.99 : ℚ)),
  (39, 27, 2, (19.99 : ℚ)), (39, 28, 3, (34.99 : ℚ)), (40, 9, 1, (249.99 : ℚ)),
  (40, 10, 1, (599.99 : ℚ)), (40, 8, 1, (39.99 : ℚ)), (41, 17, 1, (279.99 : ℚ)),
  (42, 15, 5, (69.99 : ℚ)), (43, 16, 1, (199.99 : ℚ)), (43, 18, 1, (119.99 : ℚ)),
  (43, 21, 3, (29.99 : ℚ)), (43, 4, 2, (49.99 : ℚ)), (44, 6, 1, (449.99 : ℚ)),
  (45, 14, 3, (39.99 : ℚ)), (46, 11, 1, (59.99 : ℚ)), (46, 23, 10, (12.99 : ℚ)),
  (46, 24, 10, (24.99 : ℚ)), (46, 27, 5, (19.99 : ℚ)), (47, 2, 2, (29.99 : ℚ)),
  (47, 4, 2, (49.99 : ℚ)), (47, 13, 1, (24.99 : ℚ)), (48, 5, 1, (299.99 : ℚ)),
  (49, 25, 2, (229.99 : ℚ)), (49, 22, 4, (14.99 : ℚ)), (50, 1, 1, (1299.99 : ℚ)),
  (50, 19, 3, (34.99 : ℚ)), (50, 20, 1, (44.99 : ℚ)), (51, 7, 1, (79.99 : ℚ)),
  (52, 30, 1, (29.99 : ℚ)), (52, 29, 1, (49.99 : ℚ)), (52, 28, 5, (34.99 : ℚ)),
  (53, 9, 1, (249.99 : ℚ)), (53, 8, 1, (39.99 : ℚ)), (53, 12, 2, (19.99 : ℚ)),
  (54, 17, 1, (279.99 : ℚ)), (55, 26, 1, (89.99 : ℚ)), (55, 27, 4, (19.99 : ℚ)),
  (55, 21, 4, (29.99 : ℚ)), (56, 3, 1, (89.99 : ℚ)), (57, 6, 1, (449.99 : ℚ)),
  (57, 7, 1, (79.99 : ℚ)), (58, 16, 1, (199.99 : ℚ)), (58, 18, 1, (119.99 : ℚ)),
  (59, 10, 1, (599.99 : ℚ)), (60, 15, 8, (69.99 : ℚ)), (60, 22, 3, (14.99 : ℚ)),
  (61, 14, 2, (39.99 : ℚ)), (61, 23, 10, (12.99 : ℚ)), (61, 24, 10, (24.99 : ℚ)),
  (62, 5, 1, (299.99 : ℚ)), (63, 1, 1, (1299.99 : ℚ)), (63, 2, 1, (29.99 : ℚ)),
  (63, 4, 3, (49.99 : ℚ)), (64, 11, 1, (59.99 : ℚ)), (64, 27, 3, (19.99 : ℚ)),
  (64, 28, 3, (34.99 : ℚ)), (65, 25, 2, (229.99 : ℚ)), (66, 9, 1, (249.99 : ℚ)),
  (66, 8, 1, (39.99 : ℚ)), (66, 13, 1, (24.99 : ℚ)), (67, 3, 1, (89.99 : ℚ)),
  (68, 6, 1, (449.99 : ℚ)), (69, 26, 1, (89.99 : ℚ)), (69, 21, 3, (29.99 : ℚ)),
  (69, 19, 2, (34.99 : ℚ)), (70, 17, 1, (279.99 : ℚ)), (70, 18, 1, (119.99 : ℚ)),
  (70, 4, 4, (49.99 : ℚ)), (71, 10, 1, (599.99 : ℚ)), (72, 30, 1, (29.99 : ℚ)),
  (72, 29, 1, (49.99 : ℚ)), (72, 28, 1, (34.99 : ℚ)), (73, 15, 10, (69.99 : ℚ)),
  (74, 16, 1, (199.99 : ℚ)), (75, 25, 3, (229.99 : ℚ)), (76, 2, 1, (29.99 : ℚ)),
  (76, 12, 2, (19.99 : ℚ)), (76, 13, 1, (24.99 : ℚ)), (77, 7, 1, (79.99 : ℚ)),
  (77, 8, 1, (39.99 : ℚ)), (78, 5, 3, (299.99 : ℚ)), (79, 26, 1, (89.99 : ℚ)),
  (79, 27, 2, (19.99 : ℚ)), (80, 1, 1, (1299.99 : ℚ)), (80, 23, 10, (12.99 : ℚ)),
  (80, 24, 10, (24.99 : ℚ)), (81, 14, 2, (39.99 : ℚ)), (81, 21, 2, (29.99 : ℚ)),
  (82, 3, 1, (89.99 : ℚ)), (82, 4, 1, (49.99 : ℚ)), (83, 9, 1, (249.99 : ℚ)),
  (83, 10, 1, (599.99 : ℚ)), (84, 6, 1, (449.99 : ℚ)), (85, 17, 1, (279.99 : ℚ)),
  (85, 18, 1, (119.99 : ℚ)), (85, 19, 3, (34.99 : ℚ)), (86, 11, 2, (59.99 : ℚ)),
  (87, 25, 2, (229.99 : ℚ)), (87, 22, 4, (14.99 : ℚ)), (88, 16, 1, (199.99 : ℚ)),
  (88, 15, 3, (69.99 : ℚ)), (89, 5, 1, (299.99 : ℚ)), (89, 2, 1, (29.99 : ℚ)),
  (90, 30, 1, (29.99 : ℚ)), (90, 29, 2, (49.99 : ℚ)), (90, 28, 2, (34.99 : ℚ)),
  (91, 7, 1, (79.99 : ℚ)), (91, 8, 1, (39.99 : ℚ)), (91, 12, 2, (19.99 : ℚ)),
  (92, 1, 1, (1299.99 : ℚ)), (92, 26, 1, (89.99 : ℚ)), (93, 14, 3, (39.99 : ℚ)),
  (93, 21, 2, (29.99 : ℚ)), (93, 13, 1, (24.99 : ℚ)), (94, 9, 1, (249.99 : ℚ)),
  (94, 8, 1, (39.99 : ℚ)), (95, 3, 1, (89.99 : ℚ)), (96, 25, 3, (229.99 : ℚ)),
  (96, 22, 2, (14.99 : ℚ)), (97, 6, 1, (449.99 : ℚ)), (97, 7, 1, (79.99 : ℚ)),
  (98, 10, 1, (599.99 : ℚ)), (99, 17, 1, (279.99 : ℚ)), (99, 18, 1, (119.99 : ℚ)),
  (99, 4, 3, (49.99 : ℚ)), (100, 16, 1, (199.99 : ℚ)), (100, 15, 4, (69.99 : ℚ))
]

/-- Database state relevant to `populate_data`: the contents of the four
seeded tables. -/
structure DBState where
  customers : List (String × String × String)
  products : List (String × String × ℚ × Nat × String)
  orders : List (Nat × ℚ × String)
  order_items : List (Nat × Nat × Nat × ℚ)
deriving DecidableEq, Repr

/-- Sequential `executemany` of `INSERT INTO customers ... ON CONFLICT
(email) DO NOTHING`: each batch row is appended unless a row with its
email is already present. -/
def insert_customers :
    List (String × String × String) → List (String × String × String) →
      List (String × String × String)
  | existing, [] => existing
  | existing, row :: rest =>
    insert_customers
      (if existing.any (fun r => r.2.2 = row.2.2) then existing
        else existing ++ [row]) rest

/-- Customers step of `populate_data`. -/
def populate_customers (s : DBState) : DBState :=
  if s.customers.length < MIN_CUSTOMERS then
    { s with customers := insert_customers s.customers customers_data }
  else s

/-- Products step of `populate_data` (plain batch insert). -/
def populate_products (s : DBState) : DBState :=
  if s.products.length < MIN_PRODUCTS then
    { s with products := s.products ++ products_data }
  else s

/-- Orders step of `populate_data` (plain batch insert). -/
def populate_orders (s : DBState) : DBState :=
  if s.orders.length < MIN_ORDERS then
    { s with orders := s.orders ++ orders_data }
  else s

/-- Order-items step of `populate_data` (plain batch insert). -/
def populate_order_items (s : DBState) : DBState :=
  if s.order_items.length < MIN_ORDER_ITEMS then
    { s with order_items := s.order_items ++ order_items_data }
  else s

/-- Embeds `populate_data`: the four guarded batch inserts in program
order. -/
def populate_data (s : DBState) : DBState :=
  populate_order_items (populate_orders (populate_products
    (populate_customers s)))

/-- Embeds one `CREATE TABLE IF NOT EXISTS` statement on the set of
existing table names. -/
def create_table_if_not_exists (tables : List String) (t : String) :
    List String :=
  if t ∈ tables then tables else tables ++ [t]

/-- Embeds `create_tables`: the four CREATE TABLE IF NOT EXISTS
statements in program order. -/
def create_tables (tables : List String) : List String :=
  ["customers", "products", "orders", "order_items"].foldl
    create_table_if_not_exists tables

/-! ## Helper lemmas for the idempotence of setup -/

/-- An email already represented in the table stays represented through a
conflict-skipping batch insert. -/
theorem insert_customers_keeps_email
    (batch : List (String × String × String))
    (existing : List (String × String × String)) (e : String)
    (h : ∃ r ∈ existing, r.2.2 = e) :
    ∃ r ∈ insert_customers existing batch, r.2.2 = e := by
  induction batch generalizing existing with
  | nil => exact h
  | cons b rest ih =>
    unfold insert_customers
    apply ih
    by_cases hany : (existing.any fun r => r.2.2 = b.2.2) = true
    · simpa [hany] using h
    · obtain ⟨r, hr, hre⟩ := h
      simp only [hany]
      exact ⟨r, by simp [List.mem_append, hr], hre⟩

/-- After the batch insert, every batch email is represented. -/
theorem insert_customers_covers
    (batch : List (String × String × String))
    (existing : List (String × String × String)) :
    ∀ row ∈ batch, ∃ r ∈ insert_customers existing batch, r.2.2 = row.2.2
    := by
  induction batch generalizing existing with
  | nil => simp
  | cons b rest ih =>
    intro row hrow
    unfold insert_customers
    rcases List.mem_cons.mp hrow with rfl | h
    · apply insert_customers_keeps_email
      by_cases hany : (existing.any fun r => r.2.2 = row.2.2) = true
      · simp only [hany, if_true]
        simpa [List.any_eq_true] using hany
      · simp only [hany]
        exact ⟨row, by simp, rfl⟩
    · exact ih _ row h

/-- A batch with pairwise distinct emails can only grow the table to at
least the batch's size. -/
theorem insert_customers_length
    (batch : List (String × String × String))
    (existing : List (String × String × String))
    (hnd : (batch.map fun r => r.2.2).Nodup) :
    batch.length ≤ (insert_customers existing batch).length := by
  have hsub : (batch.map fun r => r.2.2) ⊆
      ((insert_customers existing batch).map fun r => r.2.2) := by
    intro e he
    obtain ⟨row, hrow, hre⟩ := List.mem_map.mp he
    obtain ⟨r, hr, hre2⟩ := insert_customers_covers batch existing row hrow
    exact List.mem_map.mpr ⟨r, hr, hre2.trans hre⟩
  calc batch.length = (batch.map fun r => r.2.2).length :=
        (List.length_map _ _).symm
    _ ≤ ((insert_customers existing batch).map fun r => r.2.2).length :=
        (hnd.subperm hsub).length_le
    _ = (insert_customers existing batch).length := List.length_map _ _

set_option maxRecDepth 10000 in
/-- The 50 seed customer emails are pairwise distinct. -/
theorem customers_data_emails_nodup :
    (customers_data.map fun r => r.2.2).Nodup := by decide

set_option maxRecDepth 10000 in
/-- Size of the customer seed batch. -/
theorem customers_data_length : customers_data.length = 50 := by decide

set_option maxRecDepth 10000 in
/-- Size of the product seed batch. -/
theorem products_data_length : products_data.length = 30 := by decide

set_option maxRecDepth 10000 in
/-- Size of the order seed batch. -/
theorem orders_data_length : orders_data.length = 100 := by decide

set_option maxRecDepth 10000 in
/-- Size of the order-item seed batch. -/
theorem order_items_data_length : order_items_data.length = 204 := by
  decide

/-- The customers step always reaches the configured minimum. -/
theorem populate_customers_count (s : DBState) :
    MIN_CUSTOMERS ≤ (populate_customers s).customers.length := by
  unfold populate_customers
  by_cases h : s.customers.length < MIN_CUSTOMERS
  · have hb := insert_customers_length customers_data s.customers
      customers_data_emails_nodup
    have hl := customers_data_length
    simp only [if_pos h]
    show MIN_CUSTOMERS ≤ (insert_customers s.customers customers_data).length
    rw [hl] at hb
    exact hb
  · simpa [if_neg h] using Nat.le_of_not_lt h

/-- The products step always reaches the configured minimum. -/
theorem populate_products_count (s : DBState) :
    MIN_PRODUCTS ≤ (populate_products s).products.length := by
  unfold populate_products
  by_cases h : s.products.length < MIN_PRODUCTS
  · have hl := products_data_length
    simp only [if_pos h]
    show MIN_PRODUCTS ≤ (s.products ++ products_data).length
    simp [hl, MIN_PRODUCTS]
  · simpa [if_neg h] using Nat.le_of_not_lt h

/-- The orders step always reaches the configured minimum. -/
theorem populate_orders_count (s : DBState) :
    MIN_ORDERS ≤ (populate_orders s).orders.length := by
  unfold populate_orders
  by_cases h : s.orders.length < MIN_ORDERS
  · have hl := orders_data_length
    simp only [if_pos h]
    show MIN_ORDERS ≤ (s.orders ++ orders_data).length
    simp [hl, MIN_ORDERS]
  · simpa [if_neg h] using Nat.le_of_not_lt h

/-- The order-items step always reaches the configured minimum (the seed
batch holds 204 items, above the minimum of 150). -/
theorem populate_order_items_count (s : DBState) :
    MIN_ORDER_ITEMS ≤ (populate_order_items s).order_items.length := by
  unfold populate_order_items
  by_cases h : s.order_items.length < MIN_ORDER_ITEMS
  · have hl := order_items_data_length
    simp only [if_pos h]
    show MIN_ORDER_ITEMS ≤ (s.order_items ++ order_items_data).length
    simp [hl, MIN_ORDER_ITEMS]
  · simpa [if_neg h] using Nat.le_of_not_lt h

/-- The products step does not touch the customers table. -/
theorem populate_products_customers (s : DBState) :
    (populate_products s).customers = s.customers := by
  unfold populate_products
  split <;> rfl

/-- The order-items step touches only the order-items table. -/
theorem populate_order_items_untouched (s : DBState) :
    (populate_order_items s).customers = s.customers ∧
    (populate_order_items s).products = s.products ∧
    (populate_order_items s).orders = s.orders := by
  unfold populate_order_items
  split <;> exact ⟨rfl, rfl, rfl⟩

/-- The customers step touches only the customers table. -/
theorem populate_customers_untouched (s : DBState) :
    (populate_customers s).products = s.products ∧
    (populate_customers s).orders = s.orders ∧
    (populate_customers s).order_items = s.order_items := by
  unfold populate_customers
  split <;> exact ⟨rfl, rfl, rfl⟩

/-- The products step touches only the products table. -/
theorem populate_products_untouched (s : DBState) :
    (populate_products s).customers = s.customers ∧
    (populate_products s).orders = s.orders ∧
    (populate_products s).order_items = s.order_items := by
  unfold populate_products
  split <;> exact ⟨rfl, rfl, rfl⟩

/-- The orders step touches only the orders table. -/
theorem populate_orders_only_orders (s : DBState) :
    (populate_orders s).customers = s.customers ∧
    (populate_orders s).products = s.products ∧
    (populate_orders s).order_items = s.order_items := by
  unfold populate_orders
  split <;> exact ⟨rfl, rfl, rfl⟩

/-- After one full populate, every table meets its configured minimum. -/
theorem populate_data_counts (s : DBState) :
    MIN_CUSTOMERS ≤ (populate_data s).customers.length ∧
    MIN_PRODUCTS ≤ (populate_data s).products.length ∧
    MIN_ORDERS ≤ (populate_data s).orders.length ∧
    MIN_ORDER_ITEMS ≤ (populate_data s).order_items.length := by
  unfold populate_data
  refine ⟨?_, ?_, ?_, ?_⟩
  · rw [(populate_order_items_untouched _).1, (populate_orders_only_orders _).1,
      (populate_products_untouched _).1]
    exact populate_customers_count s
  · rw [(populate_order_items_untouched _).2.1,
      (populate_orders_only_orders _).2.1]
    exact populate_products_count _
  · rw [(populate_order_items_untouched _).2.2]
    exact populate_orders_count _
  · exact populate_order_items_count _

/-- When every table already meets its minimum, populate inserts
nothing. -/
theorem populate_data_noop (s : DBState)
    (h1 : MIN_CUSTOMERS ≤ s.customers.length)
    (h2 : MIN_PRODUCTS ≤ s.products.length)
    (h3 : MIN_ORDERS ≤ s.orders.length)
    (h4 : MIN_ORDER_ITEMS ≤ s.order_items.length) :
    populate_data s = s := by
  unfold populate_data
  rw [show populate_customers s = s by
      unfold populate_customers; exact if_neg (Nat.not_lt.mpr h1),
    show populate_products s = s by
      unfold populate_products; exact if_neg (Nat.not_lt.mpr h2),
    show populate_orders s = s by
      unfold populate_orders; exact if_neg (Nat.not_lt.mpr h3),
    show populate_order_items s = s by
      unfold populate_order_items; exact if_neg (Nat.not_lt.mpr h4)]

/-- A table name already present is left alone. -/
theorem create_table_if_not_exists_of_mem (tables : List String)
    (t : String) (h : t ∈ tables) :
    create_table_if_not_exists tables t = tables :=
  if_pos h

/-- A created table is present afterwards. -/
theorem mem_create_table_if_not_exists_self (tables : List String)
    (t : String) : t ∈ create_table_if_not_exists tables t := by
  unfold create_table_if_not_exists
  split
  · assumption
  · simp

/-- Creating another table keeps existing tables. -/
theorem mem_create_table_if_not_exists_of_mem (tables : List String)
    (a t : String) (h : a ∈ tables) :
    a ∈ create_table_if_not_exists tables t := by
  unfold create_table_if_not_exists
  split
  · exact h
  · exact List.mem_append_left _ h

/-- Re-running the four CREATE TABLE IF NOT EXISTS statements changes
nothing. -/
theorem create_tables_idem (tables : List String) :
    create_tables (create_tables tables) = create_tables tables := by
  have hc : "customers" ∈ create_tables tables := by
    unfold create_tables
    simp only [List.foldl]
    exact mem_create_table_if_not_exists_of_mem _ _ _
      (mem_create_table_if_not_exists_of_mem _ _ _
        (mem_create_table_if_not_exists_of_mem _ _ _
          (mem_create_table_if_not_exists_self _ _)))
  have hp : "products" ∈ create_tables tables := by
    unfold create_tables
    simp only [List.foldl]
    exact mem_create_table_if_not_exists_of_mem _ _ _
      (mem_create_table_if_not_exists_of_mem _ _ _
        (mem_create_table_if_not_exists_self _ _))
  have ho : "orders" ∈ create_tables tables := by
    unfold create_tables
    simp only [List.foldl]
    exact mem_create_table_if_not_exists_of_mem _ _ _
      (mem_create_table_if_not_exists_self _ _)
  have hi : "order_items" ∈ create_tables tables := by
    unfold create_tables
    simp only [List.foldl]
    exact mem_create_table_if_not_exists_self _ _
  show List.foldl create_table_if_not_exists (create_tables tables)
    ["customers", "products", "orders", "order_items"] = create_tables tables
  simp only [List.foldl]
  rw [create_table_if_not_exists_of_mem _ _ hc,
    create_table_if_not_exists_of_mem _ _ hp,
    create_table_if_not_exists_of_mem _ _ ho,
    create_table_if_not_exists_of_mem _ _ hi]

/-- C7: when every table already meets its configured minimum, running
populate again changes nothing; populate composed with itself equals one
populate on every state; and re-running the IF NOT EXISTS table creation
changes nothing. -/
theorem setup_idempotent (s : DBState) (tables : List String)
    (h1 : MIN_CUSTOMERS ≤ s.customers.length)
    (h2 : MIN_PRODUCTS ≤ s.products.length)
    (h3 : MIN_ORDERS ≤ s.orders.length)
    (h4 : MIN_ORDER_ITEMS ≤ s.order_items.length) :
    populate_data s = s ∧
    (∀ s₀ : DBState, populate_data (populate_data s₀) = populate_data s₀) ∧
    create_tables (create_tables tables) = create_tables tables := by
  refine ⟨populate_data_noop s h1 h2 h3 h4, ?_, create_tables_idem tables⟩
  intro s₀
  obtain ⟨g1, g2, g3, g4⟩ := populate_data_counts s₀
  exact populate_data_noop _ g1 g2 g3 g4

/-- Witness for C7 at a concrete state whose tables already meet the
minimums: populate leaves it unchanged. -/
theorem setup_idempotent_witness :
    populate_data
      ⟨List.replicate 50 ("a", "b", "c@d"),
        List.replicate 30 ("p", "d", (1 : ℚ), 1, "cat"),
        List.replicate 100 (1, (1 : ℚ), "pending"),
        List.replicate 150 (1, 1, 1, (1 : ℚ))⟩ =
      ⟨List.replicate 50 ("a", "b", "c@d"),
        List.replicate 30 ("p", "d", (1 : ℚ), 1, "cat"),
        List.replicate 100 (1, (1 : ℚ), "pending"),
        List.replicate 150 (1, 1, 1, (1 : ℚ))⟩ :=
  (setup_idempotent
    ⟨List.replicate 50 ("a", "b", "c@d"),
      List.replicate 30 ("p", "d", (1 : ℚ), 1, "cat"),
      List.replicate 100 (1, (1 : ℚ), "pending"),
      List.replicate 150 (1, 1, 1, (1 : ℚ))⟩ []
    (by simp [MIN_CUSTOMERS]) (by simp [MIN_PRODUCTS])
    (by simp [MIN_ORDERS]) (by simp [MIN_ORDER_ITEMS])).1
